import Mathlib

/-!
A shallow embedding of `src/qr-scanner.js` (class `QrScanner`) together with
theorems settling the claims about its scanning lifecycle, camera acquisition,
canvas sampling, one-shot decode and flash control.

Modelling conventions:
* The mutable instance fields (`_active`, `_paused`, `_flashOn`,
  `_preferredCamera`, `$video.srcObject`, video playback state) become fields
  of `ScannerState`.  A camera stream is identified by a `Nat` id.
* Asynchronous deferred actions (the 300ms debounced stream teardown inside
  `pause`) become pending timers: `pendingStops` records the absolute firing
  times of every scheduled `stopStream` continuation, and `advanceTo` plays
  the event loop forward, running each due continuation.
* Calls into the platform (`getUserMedia`, track `stop()`, torch
  `applyConstraints`) are recorded in observation-log fields
  (`stoppedTracks`, `acquireAttempts`, `torchApplications`) so that theorems
  can speak about which external effects a method performed.
* Platform behaviour (document visibility, `navigator.mediaDevices`,
  `ImageCapture`, torch capability) is an `Env` of oracles.
-/

namespace QrScanner

/-- The mutable state of a `QrScanner` instance, plus the pending deferred
teardown timers and observation logs of platform calls. -/
structure ScannerState where
  active : Bool
  paused : Bool
  flashOn : Bool
  preferredCamera : String
  /-- Field `$video.srcObject`: the currently attached camera stream id, if any. -/
  srcObject : Option Nat
  /-- Field `$video.paused`. -/
  videoPaused : Bool
  /-- Field `$video.ended`. -/
  videoEnded : Bool
  /-- identity of `_qrEnginePromise`; bumped when the engine is replaced. -/
  engineGeneration : Nat
  /-- current time in ms. -/
  now : Nat
  /-- absolute firing times of the deferred `stopStream` continuations
  scheduled by non-immediate `pause()` calls (`setTimeout(resolve, 300)`). -/
  pendingStops : List Nat
  /-- log: ids of stream tracks on which `track.stop()` was called. -/
  stoppedTracks : List Nat
  /-- log: every `_getCameraStream(preferredCamera, exact)` call. -/
  acquireAttempts : List (Option String × Bool)
  /-- log: every successful torch constraint application (torch on/off). -/
  torchApplications : List Bool
  deriving DecidableEq, Repr

/-- The `stopStream` closure inside `pause()`: stops and removes every track of
`$video.srcObject` and sets `$video.srcObject = null`. -/
def stopStream (s : ScannerState) : ScannerState :=
  match s.srcObject with
  | some id => { s with srcObject := none, stoppedTracks := s.stoppedTracks ++ [id] }
  | none => { s with srcObject := none }

/-- State effect of `pause(stopStreamImmediately)` up to the point where its
promise is handed back, together with the promise's value when it resolves
synchronously (`some b`), or `none` when resolution is deferred to the
scheduled 300ms timer. -/
def pauseResult (stopStreamImmediately : Bool) (s : ScannerState) :
    ScannerState × Option Bool :=
  let s1 := { s with paused := true }
  if !s1.active then (s1, some true)
  else
    let s2 := { s1 with videoPaused := true }
    if stopStreamImmediately then (stopStream s2, some true)
    else ({ s2 with pendingStops := s2.pendingStops ++ [s2.now + 300] }, none)

/-- Method `pause(stopStreamImmediately)`, state effect only. -/
def pause (stopStreamImmediately : Bool) (s : ScannerState) : ScannerState :=
  (pauseResult stopStreamImmediately s).1

/-- Method `stop()`: `this.pause(); this._active = false;` (the `pause()` promise is
not awaited). -/
def stop (s : ScannerState) : ScannerState :=
  { pause false s with active := false }

/-- The continuation of a deferred `pause` timer:
`if (!this._paused) return false; stopStream(); return true;`. -/
def fireStop (s : ScannerState) : ScannerState :=
  if !s.paused then s else stopStream s

/-- Run every pending deferred-stop continuation whose firing time is at most
`t`; returns the new state and the still-pending timers. -/
def runPending (t : Nat) : List Nat → ScannerState → ScannerState × List Nat
  | [], s => (s, [])
  | time :: rest, s =>
    if time ≤ t then runPending t rest (fireStop s)
    else ((runPending t rest s).1, time :: (runPending t rest s).2)

/-- Advance the event loop to absolute time `t`, firing every due deferred
teardown. -/
def advanceTo (t : Nat) (s : ScannerState) : ScannerState :=
  let (s', remaining) := runPending t s.pendingStops s
  { s' with pendingStops := remaining, now := t }

/-- A camera preference annotation placed on a media constraint: the JS object
`preferredCamera` (soft match) or `{ exact: preferredCamera }`. -/
inductive ConstraintValue where
  | soft (v : String)
  | exact (v : String)
  deriving DecidableEq, Repr

/-- One entry of `constraintsToTry` in `_getCameraStream`: a `width: { min }`
requirement plus at most one of `facingMode` / `deviceId`. -/
structure MediaConstraint where
  widthMin : Option Nat
  facingMode : Option ConstraintValue
  deviceId : Option ConstraintValue
  deriving DecidableEq, Repr

/-- The `constraintsToTry.forEach(constraint => constraint[preferenceType] =
preferredCamera)` annotation step of `_getCameraStream` (a falsy —
absent or empty — `preferredCamera` leaves the constraint unannotated). -/
def annotatePreference (preferredCamera : Option String) (exact : Bool)
    (c : MediaConstraint) : MediaConstraint :=
  match preferredCamera with
  | none => c
  | some p =>
    if p = "" then c
    else
      let v := if exact then ConstraintValue.exact p else ConstraintValue.soft p
      if p = "environment" ∨ p = "user" then { c with facingMode := some v }
      else { c with deviceId := some v }

/-- The prioritized constraint list built by `_getCameraStream`:
`[{width: {min: 1024}}, {width: {min: 768}}, {}]`, each annotated with the
camera preference. -/
def buildConstraints (preferredCamera : Option String) (exact : Bool) :
    List MediaConstraint :=
  [⟨some 1024, none, none⟩, ⟨some 768, none, none⟩, ⟨none, none, none⟩].map
    (annotatePreference preferredCamera exact)

/-- Method `_getMatchingCameraStream(constraintsToTry)`: rejects with
`'Camera not found.'` when `navigator.mediaDevices` is absent or the list is
exhausted, otherwise tries `getUserMedia` on the head and recurses into the
tail on failure.  `getUserMedia` is the platform oracle: `some streamId` for a
successful acquisition, `none` for a rejection. -/
def _getMatchingCameraStream (hasMediaDevices : Bool)
    (getUserMedia : MediaConstraint → Option Nat) :
    List MediaConstraint → Except String Nat
  | [] => .error "Camera not found."
  | c :: rest =>
    if !hasMediaDevices then .error "Camera not found."
    else
      match getUserMedia c with
      | some stream => .ok stream
      | none => _getMatchingCameraStream hasMediaDevices getUserMedia rest

/-- Method `_getCameraStream(preferredCamera, exact)`. -/
def _getCameraStream (hasMediaDevices : Bool)
    (getUserMedia : MediaConstraint → Option Nat)
    (preferredCamera : Option String) (exact : Bool) : Except String Nat :=
  _getMatchingCameraStream hasMediaDevices getUserMedia
    (buildConstraints preferredCamera exact)

/-- Platform oracles: page visibility, availability of
`navigator.mediaDevices`, the `getUserMedia` outcome per constraint set,
availability of the `ImageCapture` API, whether the photo capabilities of the
current track include `'flash'`, and whether the torch `applyConstraints`
call succeeds. -/
structure Env where
  docHidden : Bool
  hasMediaDevices : Bool
  getUserMedia : MediaConstraint → Option Nat
  hasImageCaptureAPI : Bool
  torchCapable : Bool
  applyTorchOk : Bool

/-- Method `hasFlash()`: resolves `false` without `ImageCapture`; rejects when no
video track exists; otherwise reports the torch capability (a
`getPhotoCapabilities` failure is caught and also reported as `false`,
folded into the `torchCapable` oracle). -/
def hasFlash (env : Env) (s : ScannerState) : Except String Bool :=
  if !env.hasImageCaptureAPI then .ok false
  else
    match s.srcObject with
    | none => .error "Camera not started or not available"
    | some _ => .ok env.torchCapable

/-- Method `_setFlash(on)`: records the requested flag, defers while inactive or
paused, otherwise checks `hasFlash()` and applies the torch constraint; any
failure flips the flag to `!on` and rethrows.  (The model string
`'applyConstraints rejected'` stands for whatever rejection the platform's
`applyConstraints` produced.) -/
def _setFlash (env : Env) (on' : Bool) (s : ScannerState) :
    ScannerState × Except String Unit :=
  let s1 := { s with flashOn := on' }
  if on' ∧ (!s1.active ∨ s1.paused) then (s1, .ok ())
  else
    match hasFlash env s1 with
    | .error e => ({ s1 with flashOn := !on' }, .error e)
    | .ok false => ({ s1 with flashOn := !on' }, .error "No flash available")
    | .ok true =>
      if env.applyTorchOk then
        ({ s1 with torchApplications := s1.torchApplications ++ [on'] }, .ok ())
      else ({ s1 with flashOn := !on' }, .error "applyConstraints rejected")

/-- One `_getCameraStream` call from `start()`, with the attempt recorded in
the `acquireAttempts` log. -/
def getCameraStreamLogged (env : Env) (preferredCamera : Option String)
    (exact : Bool) (s : ScannerState) : ScannerState × Except String Nat :=
  ({ s with acquireAttempts := s.acquireAttempts ++ [(preferredCamera, exact)] },
   _getCameraStream env.hasMediaDevices env.getUserMedia preferredCamera exact)

/-- The acquisition sequence of `start()`: an exact attempt with the
preferred camera, and on failure an unconstrained retry
(`this._getCameraStream()`). -/
def acquireStream (env : Env) (s : ScannerState) : ScannerState × Except String Nat :=
  let (s1, r1) := getCameraStreamLogged env (some s.preferredCamera) true s
  match r1 with
  | .ok id => (s1, .ok id)
  | .error _ => getCameraStreamLogged env none false s1

/-- Method `start()`: no-op when active and unpaused; marks active; defers camera
acquisition while the document is hidden; resumes playback when a stream is
still attached; otherwise acquires a stream (exact attempt, then
unconstrained retry), attaches and plays it, re-applies the flash if
`_flashOn` was set (errors swallowed), and on acquisition failure rolls the
active flag back and rejects.  (Facing-mode guessing and preview mirroring
only affect the CSS transform and are not modelled.) -/
def start (env : Env) (s : ScannerState) : ScannerState × Except String Unit :=
  if s.active ∧ !s.paused then (s, .ok ())
  else
    let s1 := { s with active := true }
    if env.docHidden then (s1, .ok ())
    else
      let s2 := { s1 with paused := false }
      match s2.srcObject with
      | some _ => ({ s2 with videoPaused := false }, .ok ())
      | none =>
        match acquireStream env s2 with
        | (s3, .error e) => ({ s3 with active := false }, .error e)
        | (s3, .ok streamId) =>
          let s4 := { s3 with srcObject := some streamId, videoPaused := false }
          let s5 := if s4.flashOn then (_setFlash env true s4).1 else s4
          (s5, .ok ())

/-- Method `setCamera(facingModeOrDeviceId)`: no-op for the currently selected
preference; otherwise records the new preference, pauses with immediate
stream teardown, and restarts unless the scanner was already paused or is no
longer active. -/
def setCamera (env : Env) (facingModeOrDeviceId : String) (s : ScannerState) :
    ScannerState :=
  if facingModeOrDeviceId = s.preferredCamera then s
  else
    let s1 := { s with preferredCamera := facingModeOrDeviceId }
    let wasPaused := s1.paused
    match pauseResult true s1 with
    | (s2, some paused) =>
      if !paused ∨ wasPaused ∨ !s2.active then s2
      else (start env s2).1
    | (s2, none) => s2  -- unreachable: `pause(true)` resolves synchronously

/-- Constant `QrScanner.NO_QR_CODE_FOUND`. -/
def NO_QR_CODE_FOUND : String := "No QR code found"

/-- Whether `needle` occurs as a contiguous run inside `hay`
(`String.prototype.indexOf(...) !== -1`). -/
def charsContain (needle : List Char) : List Char → Bool
  | [] => needle.isEmpty
  | c :: rest =>
    (needle.isPrefixOf (c :: rest) : Bool) || charsContain needle rest

/-- The `errorMessage.indexOf('service unavailable') !== -1` test of
`_scanFrame`'s error handler. -/
def serviceUnavailable (e : String) : Bool :=
  charsContain "service unavailable".toList e.toList

/-- The externally visible effects of one scan-cycle resolution: the payloads
passed to `_onDecode`, the errors passed to `_onDecodeError`, and whether a
new `requestAnimationFrame` cycle was scheduled by the trailing
`_scanFrame()` call. -/
structure CycleEffects where
  decodeCalls : List String
  decodeErrorCalls : List String
  frameRequested : Bool
  deriving DecidableEq, Repr

/-- The guard at the top of `_scanFrame`:
`if (!this._active || this.$video.paused || this.$video.ended) return false;`
— a new cycle is scheduled exactly when this holds. -/
def scanFrameStarts (s : ScannerState) : Bool :=
  s.active && !s.videoPaused && !s.videoEnded

/-- Resolution of one in-flight scan cycle in `_scanFrame`, given the outcome
`r` of the `scanImage` round-trip (`.ok payload` or `.error message`):
`.then(this._onDecode, (error) => { if (!this._active) return; ... })`
followed by `.then(() => this._scanFrame())`. -/
def resolveCycle (s : ScannerState) (r : Except String String) :
    ScannerState × CycleEffects :=
  match r with
  | .ok payload => (s, ⟨[payload], [], scanFrameStarts s⟩)
  | .error e =>
    if !s.active then (s, ⟨[], [], scanFrameStarts s⟩)
    else
      let s' := if serviceUnavailable e then
          { s with engineGeneration := s.engineGeneration + 1 }
        else s
      (s', ⟨[], [e], scanFrameStarts s'⟩)

/-- A scan region as produced by `_calculateScanRegion` or supplied by the
caller. -/
structure ScanRegion where
  x : Nat
  y : Nat
  width : Nat
  height : Nat
  downScaledWidth : Nat
  downScaledHeight : Nat
  deriving DecidableEq, Repr

/-- A source frame or still image; `width`/`height` stand for the effective
`image.width || image.videoWidth` dimensions. -/
structure Image where
  width : Nat
  height : Nat
  deriving DecidableEq, Repr

/-- An offscreen canvas: its bitmap dimensions plus counters of how many times
`canvas.width` / `canvas.height` were assigned (each assignment clears the
bitmap's content). -/
structure Canvas where
  width : Nat
  height : Nat
  widthAssignments : Nat
  heightAssignments : Nat
  deriving DecidableEq, Repr

/-- Result of `document.createElement('canvas')`: a fresh canvas has the default
300×150 bitmap. -/
def freshCanvas : Canvas := ⟨300, 150, 0, 0⟩

/-- The arguments of the 9-argument `context.drawImage` call issued by
`_drawToCanvas`: source rectangle and destination rectangle. -/
structure DrawImageCall where
  sx : Nat
  sy : Nat
  sw : Nat
  sh : Nat
  dx : Nat
  dy : Nat
  dw : Nat
  dh : Nat
  deriving DecidableEq, Repr

/-- Method `_drawToCanvas(image, scanRegion, canvas, disallowCanvasResizing)`:
creates a canvas if none is given, derives the source rectangle from the
region (JS truthiness: a `0` field falls back to the default), resizes the
canvas to the downscale target (or the region size when no downscale target
is configured) unless resizing is disallowed — assigning a dimension only
when it differs — and copies the source rectangle onto the whole canvas. -/
def _drawToCanvas (image : Image) (scanRegion : Option ScanRegion)
    (canvas : Option Canvas) (disallowCanvasResizing : Bool) :
    Canvas × DrawImageCall :=
  let c0 := canvas.getD freshCanvas
  let scanRegionX := match scanRegion with
    | some r => if r.x ≠ 0 then r.x else 0
    | none => 0
  let scanRegionY := match scanRegion with
    | some r => if r.y ≠ 0 then r.y else 0
    | none => 0
  let scanRegionWidth := match scanRegion with
    | some r => if r.width ≠ 0 then r.width else image.width
    | none => image.width
  let scanRegionHeight := match scanRegion with
    | some r => if r.height ≠ 0 then r.height else image.height
    | none => image.height
  let c1 :=
    if !disallowCanvasResizing then
      let canvasWidth := match scanRegion with
        | some r => if r.downScaledWidth ≠ 0 then r.downScaledWidth else scanRegionWidth
        | none => scanRegionWidth
      let canvasHeight := match scanRegion with
        | some r => if r.downScaledHeight ≠ 0 then r.downScaledHeight else scanRegionHeight
        | none => scanRegionHeight
      let ca := if c0.width ≠ canvasWidth then
          { c0 with width := canvasWidth, widthAssignments := c0.widthAssignments + 1 }
        else c0
      if ca.height ≠ canvasHeight then
        { ca with height := canvasHeight, heightAssignments := ca.heightAssignments + 1 }
      else ca
    else c0
  (c1, ⟨scanRegionX, scanRegionY, scanRegionWidth, scanRegionHeight, 0, 0, c1.width, c1.height⟩)

/-- A decode engine: an out-of-process worker or an in-process native
`BarcodeDetector`, each identified by a `Nat`. -/
inductive QrEngine where
  | worker (id : Nat)
  | detector (id : Nat)
  deriving DecidableEq, Repr

/-- Test `engine instanceof Worker`. -/
def QrEngine.isWorker : QrEngine → Bool
  | .worker _ => true
  | .detector _ => false

/-- The platform oracles of the one-shot decode path: what `createQrEngine()`
yields, and the decode outcome of a given engine on the canvas drawn from a
given scan region (`.ok payload`, or `.error` with `NO_QR_CODE_FOUND` or an
engine/timeout message). -/
structure ScanEnv where
  createdEngine : QrEngine
  decode : QrEngine → Option ScanRegion → Except String String

/-- The observable outcome of a `scanImage` call. -/
structure ScanOutcome where
  result : Except String String
  /-- whether `createQrEngine()` was invoked because no engine was supplied. -/
  engineCreated : Bool
  /-- log: engines to which a close message was actually posted
  (`_postWorkerMessage` is a no-op for non-worker engines). -/
  closeSignals : List QrEngine
  /-- the scan regions submitted to the engine, in order. -/
  regionsTried : List (Option ScanRegion)
  deriving Repr

/-- Method `scanImage(imageOrFileOrUrl, scanRegion, qrEngine, canvas,
disallowCanvasResizing, alsoTryWithoutScanRegion)`, restricted to its decode
orchestration: resolve the engine (creating one when none is supplied),
decode the drawn region, on failure retry once without a region when
requested (passing the now-resolved engine to the inner call), and finally
post a `close` to the engine unless an external worker was supplied. -/
def scanImage (env : ScanEnv) (scanRegion : Option ScanRegion)
    (qrEngine : Option QrEngine) (alsoTryWithoutScanRegion : Bool) :
    ScanOutcome :=
  let gotExternalWorker := match qrEngine with
    | some e => e.isWorker
    | none => false
  let engine := qrEngine.getD env.createdEngine
  let firstResult := env.decode engine scanRegion
  let (result, closeSignalsInner, regionsTried) :=
    match firstResult with
    | .ok v => (Except.ok v, [], [scanRegion])
    | .error e =>
      if h : scanRegion.isSome ∧ alsoTryWithoutScanRegion then
        let inner := scanImage env none (some engine) false
        (inner.result, inner.closeSignals, scanRegion :: inner.regionsTried)
      else (Except.error e, [], [scanRegion])
  let closeSignals :=
    closeSignalsInner ++
      (if !gotExternalWorker ∧ engine.isWorker then [engine] else [])
  ⟨result, qrEngine.isNone, closeSignals, regionsTried⟩
termination_by (if alsoTryWithoutScanRegion then 1 else 0)
decreasing_by simp [h.2]

/-! ## Helper lemmas about the pause/teardown event loop -/

theorem stopStream_paused (s : ScannerState) : (stopStream s).paused = s.paused := by
  unfold stopStream; cases s.srcObject <;> rfl

theorem stopStream_srcObject (s : ScannerState) : (stopStream s).srcObject = none := by
  unfold stopStream; cases s.srcObject <;> rfl

theorem fireStop_paused (s : ScannerState) : (fireStop s).paused = s.paused := by
  unfold fireStop; split
  · rfl
  · exact stopStream_paused s

theorem fireStop_of_paused (s : ScannerState) (h : s.paused = true) :
    fireStop s = stopStream s := by
  unfold fireStop; simp [h]

theorem runPending_srcObject_of_paused (t : Nat) (l : List Nat) (s : ScannerState)
    (h : s.paused = true) :
    (runPending t l s).1.srcObject =
      if l.any (fun x => decide (x ≤ t)) then none else s.srcObject := by
  induction l generalizing s with
  | nil => simp [runPending]
  | cons time rest ih =>
    by_cases htime : time ≤ t
    · have hp : (fireStop s).paused = true := by rw [fireStop_paused]; exact h
      have hrec := ih (fireStop s) hp
      rw [fireStop_of_paused s h, stopStream_srcObject] at hrec
      unfold runPending
      rw [if_pos htime, fireStop_of_paused s h, hrec]
      simp [htime]
    · have hrec := ih s h
      unfold runPending
      rw [if_neg htime]
      simpa [htime] using hrec

theorem pause_false_of_active (s : ScannerState) (h : s.active = true) :
    pause false s =
      { s with
        paused := true
        videoPaused := true
        pendingStops := s.pendingStops ++ [s.now + 300] } := by
  unfold pause pauseResult
  simp [h]

theorem stop_eq_of_active (s : ScannerState) (h : s.active = true) :
    stop s =
      { s with
        active := false
        paused := true
        videoPaused := true
        pendingStops := s.pendingStops ++ [s.now + 300] } := by
  unfold stop
  rw [pause_false_of_active s h]

theorem stop_active (s : ScannerState) : (stop s).active = false := rfl

/-- A representative scanner state: active, unpaused, playing a camera stream
with id 7, with no pending timers. -/
def sampleState : ScannerState :=
  { active := true, paused := false, flashOn := false,
    preferredCamera := "environment", srcObject := some 7, videoPaused := false,
    videoEnded := false, engineGeneration := 0, now := 0, pendingStops := [],
    stoppedTracks := [], acquireAttempts := [], torchApplications := [] }

/-! ## C1 -/

/-- C1, counterexample: on an active scanner holding stream 7, `stop()`
returns with the active flag cleared but with the stream still attached and
no track stopped — the teardown is deferred, not performed before `stop()`
returns, contradicting the claim that `stop()` pauses with immediate
teardown. -/
theorem c1_counterexample :
    (stop sampleState).active = false ∧
    (stop sampleState).srcObject = some 7 ∧
    (stop sampleState).stoppedTracks = [] := by
  decide

/-- C1, amended: `stop()` performs a pause with a deferred teardown — the
video is paused immediately, a teardown timer is scheduled 300ms out, and the
active flag is cleared; the camera stream is torn down when that timer
fires (the paused state still being in effect). -/
theorem c1_stop_deferred_teardown (s : ScannerState) (h : s.active = true) :
    (stop s).active = false ∧ (stop s).paused = true ∧
    (stop s).videoPaused = true ∧
    (stop s).pendingStops = s.pendingStops ++ [s.now + 300] ∧
    (advanceTo (s.now + 300) (stop s)).srcObject = none := by
  rw [stop_eq_of_active s h]
  refine ⟨rfl, rfl, rfl, rfl, ?_⟩
  unfold advanceTo
  rw [runPending_srcObject_of_paused _ _ _ rfl]
  simp

/-- C1 witness. -/
theorem c1_stop_deferred_teardown_witness :
    (stop sampleState).active = false ∧ (stop sampleState).paused = true ∧
    (stop sampleState).videoPaused = true ∧
    (stop sampleState).pendingStops = sampleState.pendingStops ++ [sampleState.now + 300] ∧
    (advanceTo (sampleState.now + 300) (stop sampleState)).srcObject = none :=
  c1_stop_deferred_teardown sampleState rfl

/-! ## C2 -/

/-- C2, counterexample: two `pause()` calls at t=0 and t=100 (windows
elapsing at 300 and 400) with no intervening resume: at t=300 — before the
last pause's window has elapsed — the first pause's deferred teardown fires
and the stream is torn down, contradicting the claim that the stream
survives until the last pause's window elapses. -/
theorem c2_counterexample :
    (pause false (advanceTo 100 (pause false sampleState))).pendingStops = [300, 400] ∧
    (advanceTo 100 (pause false sampleState)).srcObject = some 7 ∧
    (advanceTo 300 (pause false (advanceTo 100 (pause false sampleState)))).srcObject = none ∧
    (advanceTo 300 (pause false (advanceTo 100 (pause false sampleState)))).pendingStops = [400] := by
  decide

/-- C2, amended: a deferred teardown only executes if the paused state is
still in effect when its window elapses (general first conjunct); but each
`pause()` schedules its own independent timer, so repeated `pause()` calls
within 300ms with no intervening resume tear the stream down when the FIRST
pause's deferral window elapses, not the last's (concrete run of the
remaining conjuncts: pauses at t=0 and t=100, stream gone at t=300 with the
second window, 400, still pending). -/
theorem c2_deferred_teardown_guard :
    (∀ (s : ScannerState) (t target : Nat), t ≤ target →
      (advanceTo target { s with pendingStops := [t] }).srcObject =
        (if s.paused then none else s.srcObject)) ∧
    (advanceTo 300 (pause false (advanceTo 100 (pause false sampleState)))).srcObject = none ∧
    (advanceTo 300 (pause false (advanceTo 100 (pause false sampleState)))).pendingStops = [400] := by
  refine ⟨fun s t target h => ?_, by decide, by decide⟩
  unfold advanceTo runPending
  simp only [if_pos h]
  unfold runPending fireStop
  cases hp : s.paused with
  | false => simp [hp]
  | true => simp [hp, stopStream_srcObject]

/-- C2 witness. -/
theorem c2_deferred_teardown_guard_witness :
    (advanceTo 400 { { sampleState with paused := true } with
        pendingStops := [350] }).srcObject = none := by
  have h := c2_deferred_teardown_guard.1 { sampleState with paused := true } 350 400
    (by norm_num)
  simpa using h

/-! ## C3 -/

/-- C3, counterexample: a scan cycle in flight across a `stop()` call that
resolves successfully still invokes the success decode handler with its
payload (`.then(this._onDecode, ...)` passes the success branch straight to
`_onDecode` with no check of `_active`), contradicting the claim that
neither handler is invoked once the scanner is no longer active. -/
theorem c3_counterexample :
    (stop sampleState).active = false ∧
    (resolveCycle (stop sampleState) (.ok "DECODED")).2.decodeCalls = ["DECODED"] := by
  decide

/-- C3, amended: after `stop()` clears the active flag, a scan-cycle promise
that resolves afterwards never invokes the decode-error handler, never
replaces the engine, and never schedules a further cycle — but the success
decode handler IS still invoked with the payload when the decode succeeded
(only the error path checks the active flag). -/
theorem c3_stale_cycle_effects (s : ScannerState) (r : Except String String) :
    (resolveCycle (stop s) r).1 = stop s ∧
    (resolveCycle (stop s) r).2.decodeErrorCalls = [] ∧
    (resolveCycle (stop s) r).2.frameRequested = false ∧
    (resolveCycle (stop s) r).2.decodeCalls =
      (match r with
       | .ok payload => [payload]
       | .error _ => []) := by
  have ha := stop_active s
  cases r with
  | ok payload => simp [resolveCycle, scanFrameStarts, ha]
  | error e => simp [resolveCycle, scanFrameStarts, ha]

/-! ## C4 -/

/-- C4, counterexample: a scanner whose active flag is still set but whose
video has been paused (`pause()` called while a decode round-trip was in
flight, e.g. from the visibilitychange handler): the cycle resolving with
the "not found" rejection invokes the decode-error handler, yet the trailing
`_scanFrame()` fails its `this.$video.paused` guard and schedules no further
cycle — so "another cycle is always rescheduled as long as the scanner is
active" is false of the code. -/
theorem c4_counterexample :
    ({ sampleState with videoPaused := true } : ScannerState).active = true ∧
    (resolveCycle { sampleState with videoPaused := true }
      (.error NO_QR_CODE_FOUND)).2.decodeErrorCalls = [NO_QR_CODE_FOUND] ∧
    (resolveCycle { sampleState with videoPaused := true }
      (.error NO_QR_CODE_FOUND)).2.frameRequested = false := by
  decide

/-- C4, amended: a scan cycle resolving with the "not found" rejection on a
scanner that is active with the video playing (the guard at the top of
`_scanFrame`) never invokes the success decode handler, invokes the
configured decode-error handler with the rejection, leaves the scanner state
(including the engine) untouched, and schedules another cycle; the loop
never terminates itself on a NotFound result, but rescheduling additionally
requires the video to be neither paused nor ended. -/
theorem c4_notfound_continues (s : ScannerState) (ha : s.active = true)
    (hvp : s.videoPaused = false) (hve : s.videoEnded = false) :
    (resolveCycle s (.error NO_QR_CODE_FOUND)).1 = s ∧
    (resolveCycle s (.error NO_QR_CODE_FOUND)).2.decodeCalls = [] ∧
    (resolveCycle s (.error NO_QR_CODE_FOUND)).2.decodeErrorCalls = [NO_QR_CODE_FOUND] ∧
    (resolveCycle s (.error NO_QR_CODE_FOUND)).2.frameRequested = true := by
  have hsu : serviceUnavailable NO_QR_CODE_FOUND = false := by decide
  simp [resolveCycle, ha, hsu, scanFrameStarts, hvp, hve]

/-- C4 witness. -/
theorem c4_notfound_continues_witness :
    (resolveCycle sampleState (.error NO_QR_CODE_FOUND)).1 = sampleState ∧
    (resolveCycle sampleState (.error NO_QR_CODE_FOUND)).2.decodeCalls = [] ∧
    (resolveCycle sampleState (.error NO_QR_CODE_FOUND)).2.decodeErrorCalls = [NO_QR_CODE_FOUND] ∧
    (resolveCycle sampleState (.error NO_QR_CODE_FOUND)).2.frameRequested = true :=
  c4_notfound_continues sampleState rfl rfl rfl

/-! ## C5 -/

theorem getMatchingCameraStream_eq_findSome (hasMD : Bool)
    (g : MediaConstraint → Option Nat) (cs : List MediaConstraint) :
    _getMatchingCameraStream hasMD g cs =
      if hasMD then
        (match cs.findSome? g with
         | some stream => .ok stream
         | none => .error "Camera not found.")
      else .error "Camera not found." := by
  induction cs with
  | nil => cases hasMD <;> simp [_getMatchingCameraStream, List.findSome?]
  | cons c rest ih =>
    cases hasMD with
    | false => simp [_getMatchingCameraStream]
    | true => cases hg : g c <;> simp [_getMatchingCameraStream, List.findSome?_cons, hg, ih]

/-- C5: camera acquisition builds the prioritized constraint list with
minimum widths 1024, then 768, then unconstrained, each annotated with the
camera preference (an exact or soft `facingMode` match for
`'environment'`/`'user'`, otherwise `deviceId`); `_getMatchingCameraStream`
tries the constraints in order against `getUserMedia` and resolves with the
first stream that succeeds, rejecting with `'Camera not found.'` when every
constraint set fails or `navigator.mediaDevices` is absent. -/
theorem c5_camera_constraint_fallback :
    (∀ (pref : Option String) (ex : Bool),
      (buildConstraints pref ex).map (fun c => c.widthMin) =
        [some 1024, some 768, none]) ∧
    (∀ (pref : Option String) (ex : Bool),
      (buildConstraints pref ex).map (fun c => (c.facingMode, c.deviceId)) =
        List.replicate 3
          (match pref with
           | none => ((none : Option ConstraintValue), (none : Option ConstraintValue))
           | some p =>
             if p = "" then (none, none)
             else
               let v := if ex then ConstraintValue.exact p else ConstraintValue.soft p
               if p = "environment" ∨ p = "user" then (some v, none)
               else (none, some v))) ∧
    (∀ (g : MediaConstraint → Option Nat) (pref : Option String) (ex : Bool),
      _getCameraStream true g pref ex =
        (match (buildConstraints pref ex).findSome? g with
         | some stream => .ok stream
         | none => .error "Camera not found.")) ∧
    (∀ (g : MediaConstraint → Option Nat) (pref : Option String) (ex : Bool),
      _getCameraStream false g pref ex = .error "Camera not found.") := by
  refine ⟨?_, ?_, ?_, ?_⟩
  · intro pref ex
    cases pref with
    | none => rfl
    | some p =>
      by_cases hp0 : p = ""
      · simp [buildConstraints, annotatePreference, hp0]
      · by_cases hpf : p = "environment" ∨ p = "user" <;>
          simp [buildConstraints, annotatePreference, hp0, hpf]
  · intro pref ex
    cases pref with
    | none => rfl
    | some p =>
      by_cases hp0 : p = ""
      · simp [buildConstraints, annotatePreference, hp0, List.replicate]
      · by_cases hpf : p = "environment" ∨ p = "user" <;>
          simp [buildConstraints, annotatePreference, hp0, hpf, List.replicate]
  · intro g pref ex
    rw [_getCameraStream, getMatchingCameraStream_eq_findSome]
    rfl
  · intro g pref ex
    rw [_getCameraStream, getMatchingCameraStream_eq_findSome]
    rfl

/-! ## C6 -/

/-- A 640×480 source frame. -/
def cexImage : Image := ⟨640, 480⟩

/-- A 100×100 scan region at the origin with a 400×400 downscale target,
fully inside `cexImage`. -/
def cexRegion : ScanRegion := ⟨0, 0, 100, 100, 400, 400⟩

/-- An output canvas whose bitmap is currently 50×60. -/
def cexCanvas : Canvas := ⟨50, 60, 0, 0⟩

/-- C6, counterexample: with canvas resizing disallowed, `_drawToCanvas` on a
region fully inside the frame leaves the 50×60 output buffer at its previous
dimensions — equal neither to the region's own 100×100 size (as the claim
states for the disallowed case) nor to the 400×400 downscale target. -/
theorem c6_counterexample :
    (cexRegion.x + cexRegion.width ≤ cexImage.width ∧
     cexRegion.y + cexRegion.height ≤ cexImage.height) ∧
    ((_drawToCanvas cexImage (some cexRegion) (some cexCanvas) true).1.width = 50 ∧
     (_drawToCanvas cexImage (some cexRegion) (some cexCanvas) true).1.height = 60) ∧
    ¬((_drawToCanvas cexImage (some cexRegion) (some cexCanvas) true).1.width = cexRegion.width ∧
      (_drawToCanvas cexImage (some cexRegion) (some cexCanvas) true).1.height = cexRegion.height) ∧
    ¬((_drawToCanvas cexImage (some cexRegion) (some cexCanvas) true).1.width = cexRegion.downScaledWidth ∧
      (_drawToCanvas cexImage (some cexRegion) (some cexCanvas) true).1.height = cexRegion.downScaledHeight) := by
  decide

/-- C6, amended: for a scan region fully inside the frame bounds with a
configured (non-zero) downscale target, when resizing is allowed the output
buffer dimensions after drawing equal the downscale target, and a dimension
is assigned (clearing the buffer) only when it differs from that target;
when canvas resizing is disallowed the buffer is left entirely unchanged
(it keeps whatever dimensions it already had, not the region's). -/
theorem c6_canvas_dimensions (image : Image) (r : ScanRegion) (c0 : Canvas)
    (hx : r.x + r.width ≤ image.width) (hy : r.y + r.height ≤ image.height)
    (hdw : r.downScaledWidth ≠ 0) (hdh : r.downScaledHeight ≠ 0) :
    ((_drawToCanvas image (some r) (some c0) false).1.width = r.downScaledWidth ∧
     (_drawToCanvas image (some r) (some c0) false).1.height = r.downScaledHeight) ∧
    ((_drawToCanvas image (some r) (some c0) false).1.widthAssignments =
       c0.widthAssignments + (if c0.width = r.downScaledWidth then 0 else 1) ∧
     (_drawToCanvas image (some r) (some c0) false).1.heightAssignments =
       c0.heightAssignments + (if c0.height = r.downScaledHeight then 0 else 1)) ∧
    (_drawToCanvas image (some r) (some c0) true).1 = c0 := by
  by_cases hw : c0.width = r.downScaledWidth <;>
    by_cases hh : c0.height = r.downScaledHeight <;>
      simp [_drawToCanvas, hdw, hdh, hw, hh]

/-- C6 witness. -/
theorem c6_canvas_dimensions_witness :
    ((_drawToCanvas cexImage (some cexRegion) (some cexCanvas) false).1.width =
       cexRegion.downScaledWidth ∧
     (_drawToCanvas cexImage (some cexRegion) (some cexCanvas) false).1.height =
       cexRegion.downScaledHeight) ∧
    ((_drawToCanvas cexImage (some cexRegion) (some cexCanvas) false).1.widthAssignments =
       cexCanvas.widthAssignments + (if cexCanvas.width = cexRegion.downScaledWidth then 0 else 1) ∧
     (_drawToCanvas cexImage (some cexRegion) (some cexCanvas) false).1.heightAssignments =
       cexCanvas.heightAssignments + (if cexCanvas.height = cexRegion.downScaledHeight then 0 else 1)) ∧
    (_drawToCanvas cexImage (some cexRegion) (some cexCanvas) true).1 = cexCanvas :=
  c6_canvas_dimensions cexImage cexRegion cexCanvas (by decide) (by decide)
    (by decide) (by decide)

/-! ## C7 and C8: the one-shot decode path -/

/-- The inner retry call of `scanImage` (`scanRegion = null`, engine already
resolved and supplied, no further retry): it decodes the full frame, tries
exactly that one region, and posts no close signal (the supplied engine is
either an external worker, or a detector for which `_postWorkerMessage` is a
no-op). -/
theorem scanImage_inner_spec (env : ScanEnv) (engine : QrEngine) :
    (scanImage env none (some engine) false).result = env.decode engine none ∧
    (scanImage env none (some engine) false).regionsTried = [none] ∧
    (scanImage env none (some engine) false).closeSignals = [] := by
  cases engine with
  | worker id =>
    cases hd : env.decode (QrEngine.worker id) none <;>
      simp [scanImage, hd, QrEngine.isWorker]
  | detector id =>
    cases hd : env.decode (QrEngine.detector id) none <;>
      simp [scanImage, hd, QrEngine.isWorker]

/-- C7: in `scanImage` with `alsoTryWithoutScanRegion = true` and a non-null
scan region, a successful region decode is returned as-is with a single
attempt, while a failing region decode is retried exactly once against the
whole frame (regions tried: the region, then the full frame, nothing more)
and the call resolves with the full-frame outcome; in particular when the
region has no symbol (`NO_QR_CODE_FOUND`) but the full frame decodes, the
call resolves with the full-frame payload. -/
theorem c7_retry_full_frame (env : ScanEnv) (r : ScanRegion)
    (qrEngine : Option QrEngine) :
    (∀ v, env.decode (qrEngine.getD env.createdEngine) (some r) = .ok v →
      (scanImage env (some r) qrEngine true).result = .ok v ∧
      (scanImage env (some r) qrEngine true).regionsTried = [some r]) ∧
    (∀ e, env.decode (qrEngine.getD env.createdEngine) (some r) = .error e →
      (scanImage env (some r) qrEngine true).result =
        env.decode (qrEngine.getD env.createdEngine) none ∧
      (scanImage env (some r) qrEngine true).regionsTried = [some r, none]) ∧
    (∀ v, env.decode (qrEngine.getD env.createdEngine) (some r) = .error NO_QR_CODE_FOUND →
      env.decode (qrEngine.getD env.createdEngine) none = .ok v →
      (scanImage env (some r) qrEngine true).result = .ok v) := by
  refine ⟨fun v hv => ?_, fun e he => ?_, fun v hnf hfull => ?_⟩
  · rw [scanImage.eq_def]
    simp [hv]
  · cases hfull : env.decode (qrEngine.getD env.createdEngine) none <;>
      · rw [scanImage.eq_def]
        simp [scanImage, he, hfull]
  · rw [scanImage.eq_def]
    simp [scanImage, hnf, hfull]

/-- A one-shot decode environment in which the created engine is a worker,
every region decode reports "not found" and the full frame decodes to
`"FULL"`. -/
def cexScanEnv : ScanEnv :=
  ⟨.worker 0, fun _ reg =>
    match reg with
    | some _ => .error NO_QR_CODE_FOUND
    | none => .ok "FULL"⟩

/-- C7 witness. -/
theorem c7_retry_full_frame_witness :
    (scanImage cexScanEnv (some cexRegion) none true).result = .ok "FULL" ∧
    (scanImage cexScanEnv (some cexRegion) none true).regionsTried = [some cexRegion, none] := by
  have h := (c7_retry_full_frame cexScanEnv cexRegion none).2.1 NO_QR_CODE_FOUND rfl
  exact ⟨h.1.trans rfl, h.2⟩

/-- C8: engine-handle ownership in `scanImage`: when an engine handle is
supplied externally, the call never creates one and never posts a close
signal to any engine (for an external worker the `finally` close is skipped
outright; for an external detector `_postWorkerMessage` is a no-op); when no
handle is supplied, one is created by the call and a close signal is posted
to it exactly when it is of the worker kind (`close()` being a no-op for an
in-process detector), regardless of the decode succeeding or failing. -/
theorem c8_engine_ownership (env : ScanEnv) (scanRegion : Option ScanRegion)
    (alsoTry : Bool) :
    (∀ e : QrEngine,
      (scanImage env scanRegion (some e) alsoTry).engineCreated = false ∧
      (scanImage env scanRegion (some e) alsoTry).closeSignals = []) ∧
    ((scanImage env scanRegion none alsoTry).engineCreated = true ∧
     (scanImage env scanRegion none alsoTry).closeSignals =
       (if env.createdEngine.isWorker then [env.createdEngine] else [])) := by
  constructor
  · intro e
    cases e with
    | worker id =>
      cases hd : env.decode (QrEngine.worker id) scanRegion with
      | ok v => simp [scanImage, hd, QrEngine.isWorker]
      | error msg =>
        by_cases hc : scanRegion.isSome = true ∧ alsoTry = true
        · cases hfull : env.decode (QrEngine.worker id) none <;>
            simp [scanImage, hd, hfull, hc, QrEngine.isWorker]
        · simp [scanImage, hd, hc, QrEngine.isWorker]
    | detector id =>
      cases hd : env.decode (QrEngine.detector id) scanRegion with
      | ok v => simp [scanImage, hd, QrEngine.isWorker]
      | error msg =>
        by_cases hc : scanRegion.isSome = true ∧ alsoTry = true
        · cases hfull : env.decode (QrEngine.detector id) none <;>
            simp [scanImage, hd, hfull, hc, QrEngine.isWorker]
        · simp [scanImage, hd, hc, QrEngine.isWorker]
  · cases hd : env.decode env.createdEngine scanRegion with
    | ok v => simp [scanImage, hd]
    | error msg =>
      by_cases hc : scanRegion.isSome = true ∧ alsoTry = true
      · cases hw : env.createdEngine <;>
          · rw [hw] at hd
            cases hfull : env.decode env.createdEngine none <;>
              · rw [hw] at hfull
                simp [scanImage, hd, hfull, hc, hw, QrEngine.isWorker]
      · simp [scanImage, hd, hc]

/-! ## Helper lemmas for `setCamera`, `start` and `_setFlash` -/

theorem stopStream_active (s : ScannerState) : (stopStream s).active = s.active := by
  unfold stopStream; cases s.srcObject <;> rfl

theorem stopStream_preferredCamera (s : ScannerState) :
    (stopStream s).preferredCamera = s.preferredCamera := by
  unfold stopStream; cases s.srcObject <;> rfl

theorem stopStream_acquireAttempts (s : ScannerState) :
    (stopStream s).acquireAttempts = s.acquireAttempts := by
  unfold stopStream; cases s.srcObject <;> rfl

theorem stopStream_stoppedTracks (s : ScannerState) :
    (stopStream s).stoppedTracks =
      s.stoppedTracks ++ (match s.srcObject with
        | some id => [id]
        | none => []) := by
  unfold stopStream; cases s.srcObject <;> simp

/-- Whatever branch `_setFlash` takes, it leaves every field other than the
`flashOn` flag and the torch log untouched. -/
theorem _setFlash_fields (env : Env) (b : Bool) (s : ScannerState) :
    (_setFlash env b s).1.preferredCamera = s.preferredCamera ∧
    (_setFlash env b s).1.stoppedTracks = s.stoppedTracks ∧
    (_setFlash env b s).1.acquireAttempts = s.acquireAttempts ∧
    (_setFlash env b s).1.srcObject = s.srcObject := by
  unfold _setFlash
  dsimp only
  split
  · exact ⟨rfl, rfl, rfl, rfl⟩
  · split
    · exact ⟨rfl, rfl, rfl, rfl⟩
    · exact ⟨rfl, rfl, rfl, rfl⟩
    · split
      · exact ⟨rfl, rfl, rfl, rfl⟩
      · exact ⟨rfl, rfl, rfl, rfl⟩

theorem _setFlash_preferredCamera (env : Env) (b : Bool) (s : ScannerState) :
    (_setFlash env b s).1.preferredCamera = s.preferredCamera :=
  (_setFlash_fields env b s).1

theorem _setFlash_stoppedTracks (env : Env) (b : Bool) (s : ScannerState) :
    (_setFlash env b s).1.stoppedTracks = s.stoppedTracks :=
  (_setFlash_fields env b s).2.1

theorem _setFlash_acquireAttempts (env : Env) (b : Bool) (s : ScannerState) :
    (_setFlash env b s).1.acquireAttempts = s.acquireAttempts :=
  (_setFlash_fields env b s).2.2.1

/-- Any failing `_setFlash` leaves the flag at the negation of the requested
value. -/
theorem _setFlash_error_flashOn (env : Env) (b : Bool) (s : ScannerState) :
    ∀ e, (_setFlash env b s).2 = .error e → (_setFlash env b s).1.flashOn = !b := by
  intro e
  unfold _setFlash
  dsimp only
  split
  · intro he; simp at he
  · split
    · intro he; rfl
    · intro he; rfl
    · split
      · intro he; simp at he
      · intro he; rfl

/-- Running `start()` on a paused active scanner with no attached stream (the state
`setCamera` leaves behind after its immediate pause): the preferred camera and
the track log are untouched, and the first camera acquisition attempted is an
exact match for the current preferred camera. -/
theorem start_after_switch (env : Env) (s : ScannerState)
    (ha : s.active = true) (hp : s.paused = true) (hh : env.docHidden = false)
    (hsrc : s.srcObject = none) :
    (start env s).1.preferredCamera = s.preferredCamera ∧
    (start env s).1.stoppedTracks = s.stoppedTracks ∧
    ∃ rest, (start env s).1.acquireAttempts =
      s.acquireAttempts ++ ((some s.preferredCamera, true) :: rest) := by
  cases hr1 : _getCameraStream env.hasMediaDevices env.getUserMedia
      (some s.preferredCamera) true with
  | ok id =>
    by_cases hfl : s.flashOn = true
    · unfold start acquireStream getCameraStreamLogged
      simp [ha, hp, hh, hsrc, hr1, hfl, _setFlash_preferredCamera,
        _setFlash_stoppedTracks, _setFlash_acquireAttempts]
    · unfold start acquireStream getCameraStreamLogged
      simp [ha, hp, hh, hsrc, hr1, hfl]
  | error e =>
    cases hr2 : _getCameraStream env.hasMediaDevices env.getUserMedia none false with
    | ok id =>
      by_cases hfl : s.flashOn = true
      · unfold start acquireStream getCameraStreamLogged
        simp [ha, hp, hh, hsrc, hr1, hr2, hfl, _setFlash_preferredCamera,
          _setFlash_stoppedTracks, _setFlash_acquireAttempts]
      · unfold start acquireStream getCameraStreamLogged
        simp [ha, hp, hh, hsrc, hr1, hr2, hfl]
    | error e2 =>
      unfold start acquireStream getCameraStreamLogged
      simp [ha, hp, hh, hsrc, hr1, hr2]

/-- Running `start()` on an inactive scanner with a recorded flash request, when the
page is visible and the exact acquisition succeeds on a torch-capable
platform: the stream is attached and the torch is re-applied automatically
(`if (this._flashOn) this.turnFlashOn()`). -/
theorem start_reapplies_flash (env : Env) (s : ScannerState) (id : Nat)
    (hfl : s.flashOn = true) (ha : s.active = false) (hh : env.docHidden = false)
    (hsrc : s.srcObject = none)
    (hr1 : _getCameraStream env.hasMediaDevices env.getUserMedia
      (some s.preferredCamera) true = .ok id)
    (hapi : env.hasImageCaptureAPI = true) (htc : env.torchCapable = true)
    (hat : env.applyTorchOk = true) :
    (start env s).1.torchApplications = s.torchApplications ++ [true] ∧
    (start env s).1.flashOn = true ∧
    (start env s).1.srcObject = some id := by
  unfold start acquireStream getCameraStreamLogged _setFlash hasFlash
  simp [ha, hh, hsrc, hr1, hfl, hapi, htc, hat]

/-! ## C9 -/

/-- C9: `setCamera` with the currently selected preference returns the state
completely unchanged — same preferred-camera token, same active/paused flags,
same stream, no track stopped and no acquisition attempted; with a different
preference on an active, unpaused scanner (page visible), the preferred
camera is replaced, the current stream's track is stopped immediately, and
the scanner is restarted: the next acquisition attempted is an exact match
for the new preference. -/
theorem c9_set_camera (env : Env) (s : ScannerState) (newPref : String)
    (hne : newPref ≠ s.preferredCamera) (ha : s.active = true)
    (hp : s.paused = false) (hh : env.docHidden = false) :
    (setCamera env s.preferredCamera s = s) ∧
    (setCamera env newPref s).preferredCamera = newPref ∧
    (∀ id, s.srcObject = some id →
      (setCamera env newPref s).stoppedTracks = s.stoppedTracks ++ [id]) ∧
    (∃ rest, (setCamera env newPref s).acquireAttempts =
      s.acquireAttempts ++ ((some newPref, true) :: rest)) := by
  have hred : setCamera env newPref s =
      (start env (stopStream
        { s with preferredCamera := newPref, paused := true, videoPaused := true })).1 := by
    unfold setCamera pauseResult
    simp [hne, ha, hp, stopStream_active]
  have hmain := start_after_switch env
    (stopStream { s with preferredCamera := newPref, paused := true, videoPaused := true })
    (by rw [stopStream_active]; exact ha)
    (by rw [stopStream_paused])
    hh (stopStream_srcObject _)
  simp only [stopStream_preferredCamera, stopStream_acquireAttempts] at hmain
  refine ⟨by simp [setCamera], ?_, ?_, ?_⟩
  · rw [hred, hmain.1]
  · intro id hid
    rw [hred, hmain.2.1, stopStream_stoppedTracks]
    simp [hid]
  · obtain ⟨rest, hrest⟩ := hmain.2.2
    exact ⟨rest, by rw [hred, hrest]⟩

/-- A standard platform environment: page visible, camera subsystem present
and succeeding with stream 5 for any constraint, `ImageCapture` available,
torch capable, torch application succeeding. -/
def envSample : Env := ⟨false, true, fun _ => some 5, true, true, true⟩

/-- C9 witness. -/
theorem c9_set_camera_witness :
    (setCamera envSample sampleState.preferredCamera sampleState = sampleState) ∧
    (setCamera envSample "user" sampleState).preferredCamera = "user" ∧
    (∀ id, sampleState.srcObject = some id →
      (setCamera envSample "user" sampleState).stoppedTracks =
        sampleState.stoppedTracks ++ [id]) ∧
    (∃ rest, (setCamera envSample "user" sampleState).acquireAttempts =
      sampleState.acquireAttempts ++ (((some "user" : Option String), true) :: rest)) :=
  c9_set_camera envSample sampleState "user" (by decide) rfl rfl rfl

/-! ## C10 -/

/-- C10, counterexample: an active, unpaused scanner with the flash flag
already `true` and no camera track attached: `_setFlash(true)` is rejected
with `'Camera not started or not available'` — not the claimed
`'No flash available'` — and the flag afterwards is `false`, not its value
before the call. -/
theorem c10_counterexample :
    ({ sampleState with flashOn := true, srcObject := none } : ScannerState).flashOn = true ∧
    (_setFlash envSample true { sampleState with flashOn := true, srcObject := none }).2 =
      .error "Camera not started or not available" ∧
    "Camera not started or not available" ≠ "No flash available" ∧
    (_setFlash envSample true
      { sampleState with flashOn := true, srcObject := none }).1.flashOn = false := by
  exact ⟨rfl, rfl, by decide, rfl⟩

/-- C10, amended: `_setFlash(on)` is rejected with `'No flash available'`
when the platform reports no torch capability (no `ImageCapture` API, or a
present track without the torch capability); when no track exists it is
rejected with the distinct `'Camera not started or not available'` error; on
any failure the flag is set to the negation of the requested value (which is
the pre-call value only when the call actually toggled the flag); a flash-on
request while inactive or paused resolves immediately, records the flag, and
the torch is applied automatically when the camera stream is next started. -/
theorem c10_flash_behavior (env : Env) (s : ScannerState) (b : Bool) :
    (∀ e, (_setFlash env b s).2 = .error e → (_setFlash env b s).1.flashOn = !b) ∧
    (s.active = true → s.paused = false → s.srcObject = none →
      env.hasImageCaptureAPI = true →
      (_setFlash env b s).2 = .error "Camera not started or not available") ∧
    (s.active = true → s.paused = false →
      (env.hasImageCaptureAPI = false ∨
        (s.srcObject.isSome = true ∧ env.torchCapable = false)) →
      (_setFlash env b s).2 = .error "No flash available") ∧
    (b = true → (s.active = false ∨ s.paused = true) →
      (_setFlash env b s).2 = .ok () ∧ (_setFlash env b s).1.flashOn = true ∧
      (_setFlash env b s).1.torchApplications = s.torchApplications) ∧
    (∀ id, s.flashOn = true → s.active = false → env.docHidden = false →
      s.srcObject = none →
      _getCameraStream env.hasMediaDevices env.getUserMedia
        (some s.preferredCamera) true = .ok id →
      env.hasImageCaptureAPI = true → env.torchCapable = true →
      env.applyTorchOk = true →
      (start env s).1.torchApplications = s.torchApplications ++ [true] ∧
      (start env s).1.flashOn = true) := by
  refine ⟨_setFlash_error_flashOn env b s, ?_, ?_, ?_, ?_⟩
  · intro ha hp hsrc hapi
    unfold _setFlash hasFlash
    simp [ha, hp, hsrc, hapi]
  · intro ha hp hcap
    rcases hcap with hapi | ⟨hsome, htc⟩
    · unfold _setFlash hasFlash
      simp [ha, hp, hapi]
    · obtain ⟨id, hid⟩ := Option.isSome_iff_exists.mp hsome
      unfold _setFlash hasFlash
      by_cases hapi : env.hasImageCaptureAPI = true <;>
        simp [ha, hp, hapi, hid, htc]
  · intro hb hinact
    subst hb
    rcases hinact with ha | hp
    · unfold _setFlash
      simp [ha]
    · unfold _setFlash
      simp [hp]
  · intro id hfl ha hh hsrc hr1 hapi htc hat
    have h := start_reapplies_flash env s id hfl ha hh hsrc hr1 hapi htc hat
    exact ⟨h.1, h.2.1⟩

/-- A platform environment without torch capability. -/
def envNoTorch : Env := ⟨false, true, fun _ => some 5, true, false, true⟩

/-- C10 witness. -/
theorem c10_flash_behavior_witness :
    (_setFlash envNoTorch true sampleState).2 = .error "No flash available" ∧
    (_setFlash envNoTorch true sampleState).1.flashOn = false := by
  have h := c10_flash_behavior envNoTorch sampleState true
  have herr := h.2.2.1 rfl rfl (Or.inr ⟨rfl, rfl⟩)
  exact ⟨herr, h.1 "No flash available" herr⟩

end QrScanner
